import Mathlib

/-!
Verification of the Descope MFA augmentation workshop server.

The embedding below translates the request handlers of `src/api/index.ts`
(the MFA-augmented server), the login route of
`src/homegrown-auth-server-after/src/routes/auth.ts` (the password-only
variant, identical to `src/unnamed/part_001`), and the `authenticateToken`
middleware into pure Lean functions.  The external Descope SDK is modelled
as a record of response-valued functions (one per SDK call the handlers
make), and the third-party `jose` JWT library is modelled from the spec's
Token Codec contract with an idealised keyed signature.

JavaScript truthiness of optional strings (`undefined` and `""` are falsy)
is made explicit through `jsOrS` and the `truthy` helpers, because several
branch conditions in the source (`if (error)`, `!code`, `!sessionToken`,
`process.env.X || d`) depend on it.
-/

namespace Spec2Proof

/-- JavaScript `a || d` on an optional string: `undefined` and `""` are
falsy, any other string is returned unchanged. -/
def jsOrS : Option String → String → String
  | none, d => d
  | some s, d => if s = "" then d else s

/-- An Express query-string value: a plain string (`?k=v`) or an array
(`?k=a&k=b`).  Arrays fail the source's `typeof code === 'string'` check. -/
inductive QueryVal
  | str (s : String)
  | arr (l : List String)
deriving DecidableEq, Repr

/-- JavaScript truthiness of a query value: the empty string is falsy,
every other string is truthy, and an array object is always truthy. -/
def QueryVal.truthy : QueryVal → Bool
  | .str s => decide (s ≠ "")
  | .arr _ => true

/-- String interpolation of a query value, as in a JS template literal
(arrays are joined with commas). -/
def QueryVal.display : QueryVal → String
  | .str s => s
  | .arr l => String.intercalate "," l

/-- Truthiness of a possibly absent query parameter (`if (error)`). -/
def truthyQV : Option QueryVal → Bool
  | none => false
  | some v => v.truthy

/-- Interpolation of a possibly absent query parameter. -/
def displayQV : Option QueryVal → String
  | none => "undefined"
  | some v => v.display

/-- The environment variables the handlers read (`process.env`).  A missing
variable is `none`; note the source treats a present-but-empty variable the
same as a missing one wherever it guards with `||` or `!`. -/
structure Env where
  JWT_SECRET : Option String
  DESCOPE_REDIRECT_URL : Option String
  DESCOPE_PROJECT_ID : Option String
  FRONTEND_URL : Option String
deriving DecidableEq, Repr

/-- A JWT payload: a JSON object of string claims, as the handlers build
with `{sub, email}` or `{userId, username}`. -/
abbrev Claims := List (String × String)

/-- The internally distinguishable verification failures of the Token
Codec (`jose` raises distinct error classes for each). -/
inductive VerifyError
  | malformed
  | badSignature
  | expired
deriving DecidableEq, Repr

/-- Modelled from the spec: a signed, time-bounded session token as
produced by the third-party `jose` `SignJWT` call (the JWS itself is not
repository code).  The HMAC signature is idealised by recording the signing
key: verification under a key succeeds exactly when the token was signed
under that same key, which is the ideal-MAC reading of HS256. -/
structure Token where
  payload : Claims
  exp : Nat
  key : String
deriving DecidableEq, Repr

/-- Modelled from the spec: Token Codec `issue` — sign the claim set under
`secret` with expiry `now + ttl` (the handlers fix `ttl` to one hour via
`setExpirationTime("1h")`).  Note there is no configuration check: the
source signs with whatever key `process.env.JWT_SECRET || ''` yields. -/
def issue (secret : String) (payload : Claims) (now ttl : Nat) : Token :=
  ⟨payload, now + ttl, secret⟩

/-- Modelled from the spec: Token Codec `verify` — signature first, then
expiry (`jose` accepts a token while `now < exp`). -/
def verify (secret : String) (t : Token) (now : Nat) : Except VerifyError Claims :=
  if t.key = secret then
    if now < t.exp then .ok t.payload else .error .expired
  else .error .badSignature

/-- Split a character list on a separator character, in the manner of
JavaScript `String.split` with a one-character separator (adjacent
separators yield empty segments; the result is never empty). -/
def splitChar (sep : Char) : List Char → List (List Char)
  | [] => [[]]
  | c :: cs =>
    match splitChar sep cs with
    | [] => [[c]]
    | w :: ws => if c = sep then [] :: w :: ws else (c :: w) :: ws

/-- Parse a decimal numeral from a character list. -/
def natFromDigits (l : List Char) : Option Nat :=
  if l = [] then none
  else
    l.foldl
      (fun acc c =>
        match acc with
        | none => none
        | some n => if c.isDigit then some (n * 10 + (c.toNat - 48)) else none)
      (some 0)

/-- A colon/semicolon rendering of a claim object, standing for the JSON
segment of a compact JWS.  Only `decodeToken` below is load-bearing. -/
def decodePayload (p : List Char) : Claims :=
  (splitChar ';' p).filterMap fun kv =>
    match splitChar ':' kv with
    | [k, v] => some (String.mk k, String.mk v)
    | _ => none

/-- Modelled from the spec: parsing a wire token string into its parts, as
`jose.jwtVerify` first parses the three dot-separated JWS segments; a
string that does not parse is a malformed token. -/
def decodeToken (s : String) : Option Token :=
  match splitChar '.' s.toList with
  | [p, e, k] => (natFromDigits e).map fun n => ⟨decodePayload p, n, String.mk k⟩
  | _ => none

/-- `jwtVerify` on a wire string: parse, then verify signature and expiry. -/
def jwtVerifyS (secret : String) (s : String) (now : Nat) : Except VerifyError Claims :=
  match decodeToken s with
  | none => .error .malformed
  | some t => verify secret t now

/-- The seeded in-memory user record of `src/api/index.ts`. -/
structure User where
  id : String
  username : String
  email : String
deriving DecidableEq, Repr

/-- `dummyUser` from `src/api/index.ts` lines 35–39. -/
def dummyUser : User := ⟨"1", "testuser", "test@example.com"⟩

/-- The observable HTTP responses the embedded handlers produce.
`err s m` is `res.status(s).json({message: m})`; `redirect u` is the login
success body `{redirectUrl: u}` (status 200); `tokenUser t u` is the
password-only variant's `{token, user}` body; `page t fe` is the callback
success HTML that stores token `t` in localStorage and navigates to
`fe + "/protected.html"`; `userInfo u` is `{user: u}` from `/api/auth/me`. -/
inductive Response
  | err (status : Nat) (message : String)
  | redirect (redirectUrl : String)
  | tokenUser (token : Token) (user : User)
  | page (token : Token) (frontendUrl : String)
  | userInfo (user : User)
deriving DecidableEq, Repr

/-- The session token a response hands to the client, if any. -/
def mintsToken : Response → Option Token
  | .tokenUser t _ => some t
  | .page t _ => some t
  | _ => none

/-- The HTTP status code of a response (Express defaults to 200 when no
status is set explicitly). -/
def statusOf : Response → Nat
  | .err s _ => s
  | _ => 200

/-- The `{ok, data, error}` envelope the Descope SDK returns. -/
structure SdkResp (α : Type) where
  ok : Bool
  data : Option α
  error : Option String
deriving DecidableEq, Repr

/-- `response.data` of `oauth.start`: may or may not carry a `url`. -/
structure StartData where
  url : Option String
deriving DecidableEq, Repr

/-- `tokenResponse.data` of `oauth.exchange`: may carry a `refreshJwt`. -/
structure ExchangeData where
  refreshJwt : Option String
deriving DecidableEq, Repr

/-- The fields the callback reads off a validated Descope session
(`userInfo.userId`, `userInfo.sub`, `userInfo.email`). -/
structure SessionInfo where
  userId : Option String
  sub : Option String
  email : Option String
deriving DecidableEq, Repr

/-- The external Descope client, as the boundary the handlers call into.
Each operation either throws (`Except.error`, caught by the handlers'
`try/catch`) or returns its SDK response; `validateSession` yields `none`
for a falsy validation result. -/
structure DescopeClient where
  oauthStart : String → Except String (SdkResp StartData)
  oauthExchange : String → Except String (SdkResp ExchangeData)
  validateSession : String → Except String (Option SessionInfo)

/-- One provider-adapter call made by a handler, for call-count and
ordering properties. -/
inductive PCall
  | exchange (code : String)
  | validate (tok : String)
deriving DecidableEq, Repr

/-- `getOidcRedirectUrl` from `src/api/index.ts` lines 107–155: require a
truthy `DESCOPE_PROJECT_ID`, call `oauth.start`, require a truthy response
`url`, and append `&login_hint=<userEmail>`.  Every failure is a thrown
error, which the login route's `catch` turns into a 500. -/
def getOidcRedirectUrl (env : Env) (client : DescopeClient) (userEmail : String) :
    Except String String :=
  let redirectUrl := jsOrS env.DESCOPE_REDIRECT_URL ""
  if jsOrS env.DESCOPE_PROJECT_ID "" = "" then
    .error "Missing Descope configuration. Please check your environment variables."
  else
    match client.oauthStart redirectUrl with
    | .error e => .error e
    | .ok r =>
      if r.ok then
        let u := jsOrS (r.data.bind StartData.url) ""
        if u = "" then .error "No redirect URL in response"
        else .ok (u ++ "&login_hint=" ++ userEmail)
      else .error "OAuth start failed"

/-- `POST /api/auth/login` from `src/api/index.ts` lines 183–206: the first
factor compares only the submitted password against the constant
`"password"` (the email is not consulted); on success the response carries
only the provider redirect URL, never a token. -/
def login (env : Env) (client : DescopeClient) (email password : String) : Response :=
  if password = "password" then
    match getOidcRedirectUrl env client email with
    | .ok url => .redirect url
    | .error _ => .err 500 "Error getting redirect URL"
  else .err 401 "Invalid credentials"

/-- `router.post('/login')` from
`src/homegrown-auth-server-after/src/routes/auth.ts` lines 13–38 (the same
logic as `src/unnamed/part_001`): on `username = "testuser"` and
`password = "password"` it signs a `{userId, username}` token and returns
`{token, user}` directly — no second factor is involved. -/
def homegrownLogin (env : Env) (username password : String) (now : Nat) : Response :=
  if username = "testuser" ∧ password = "password" then
    .tokenUser
      (issue (jsOrS env.JWT_SECRET "") [("userId", "1"), ("username", "testuser")] now 3600)
      dummyUser
  else .err 401 "Invalid credentials"

/-- The query parameters `GET /api/auth/callback` destructures
(`const { code, state, error } = req.query`). -/
structure Query where
  code : Option QueryVal
  state : Option QueryVal
  error : Option QueryVal
deriving DecidableEq, Repr

/-- `GET /api/auth/callback` from `src/api/index.ts` lines 263–367,
instrumented with the list of provider calls it performs, in order:
truthy `error` → 400; missing/empty/non-string `code` → 400; then
`oauth.exchange`, requiring `ok` and a truthy `refreshJwt` (→ 401
otherwise); then `validateSession`, requiring a truthy result (→ 401);
then sign `{sub, email}` (each defaulting to `""` via `||`) under
`JWT_SECRET || ""` with a one-hour expiry and return the token-storing
page.  A thrown provider error reaches the `catch` → 500. -/
def callback (env : Env) (client : DescopeClient) (q : Query) (now : Nat) :
    Response × List PCall :=
  if truthyQV q.error then
    (.err 400 ("Authentication failed: " ++ displayQV q.error), [])
  else
    match q.code with
    | some (.str c) =>
      if c = "" then (.err 400 "No authorization code provided", [])
      else
        match client.oauthExchange c with
        | .error _ => (.err 500 "Error processing authentication", [.exchange c])
        | .ok tr =>
          if tr.ok then
            let st := jsOrS (tr.data.bind ExchangeData.refreshJwt) ""
            if st = "" then (.err 401 "No session token received", [.exchange c])
            else
              match client.validateSession st with
              | .error _ =>
                (.err 500 "Error processing authentication", [.exchange c, .validate st])
              | .ok none => (.err 401 "Invalid session", [.exchange c, .validate st])
              | .ok (some info) =>
                let userId := jsOrS info.userId (jsOrS info.sub "")
                let email := jsOrS info.email ""
                let secret := jsOrS env.JWT_SECRET ""
                let userToken := issue secret [("sub", userId), ("email", email)] now 3600
                let frontendUrl := jsOrS env.FRONTEND_URL "http://localhost:3000"
                (.page userToken frontendUrl, [.exchange c, .validate st])
          else (.err 401 "Failed to exchange authorization code", [.exchange c])
    | some (.arr _) => (.err 400 "No authorization code provided", [])
    | none => (.err 400 "No authorization code provided", [])

/-- The outcome of the `authenticateToken` middleware: deny with a
response, or call `next()` with the verified payload attached to
`req.user`. -/
inductive GuardResult
  | denied (r : Response)
  | admitted (claims : Claims)
deriving DecidableEq, Repr

/-- `req.headers.authorization?.split(' ')[1]`, with the JS-falsy cases
(absent header, no second word, empty second word) collapsed to `""`. -/
def extractBearer : Option String → String
  | none => ""
  | some h => String.mk ((splitChar ' ' h.toList).getD 1 [])

/-- `authenticateToken` from `src/api/index.ts` lines 69–85: no bearer
credential → 401 "No token provided"; otherwise `jwtVerify` under
`JWT_SECRET || ""`, admitting with the payload on success and answering
the single `catch`-all 401 "Invalid token" on any verification failure. -/
def authenticateToken (env : Env) (auth : Option String) (now : Nat) : GuardResult :=
  let token := extractBearer auth
  if token = "" then .denied (.err 401 "No token provided")
  else
    match jwtVerifyS (jsOrS env.JWT_SECRET "") token now with
    | .ok payload => .admitted payload
    | .error _ => .denied (.err 401 "Invalid token")

/-- `GET /api/auth/me` from `src/api/index.ts` lines 214–216: behind the
guard, always answer the constant `{user: dummyUser}` — the verified
payload is never consulted. -/
def authMe (env : Env) (auth : Option String) (now : Nat) : Response :=
  match authenticateToken env auth now with
  | .denied r => r
  | .admitted _ => .userInfo dummyUser

/-- A demo environment with all variables set. -/
def envDemo : Env :=
  ⟨some "demo-secret", some "http://localhost:3000/api/auth/callback",
   some "P1", some "http://localhost:3000"⟩

/-- The demo environment with `JWT_SECRET` unset. -/
def envNoSecret : Env :=
  ⟨none, some "http://localhost:3000/api/auth/callback", some "P1", none⟩

/-- A provider double whose three operations all succeed. -/
def stubClient : DescopeClient :=
  ⟨fun _ => .ok ⟨true, some ⟨some "https://auth.example/authorize?x=1"⟩, none⟩,
   fun _ => .ok ⟨true, some ⟨some "refresh-jwt"⟩, none⟩,
   fun _ => .ok (some ⟨some "U1", none, some "u@example.com"⟩)⟩

/-- A provider double whose validated session carries no identity fields. -/
def stubEmptyUserClient : DescopeClient :=
  ⟨fun _ => .ok ⟨true, some ⟨some "https://auth.example/authorize?x=1"⟩, none⟩,
   fun _ => .ok ⟨true, some ⟨some "refresh-jwt"⟩, none⟩,
   fun _ => .ok (some ⟨none, none, none⟩)⟩

/-- A provider double whose every operation throws (network down). -/
def stubDownClient : DescopeClient :=
  ⟨fun _ => .error "network", fun _ => .error "network", fun _ => .error "network"⟩

/-- A provider double whose code exchange is rejected (`ok: false`). -/
def stubFailExchangeClient : DescopeClient :=
  ⟨fun _ => .ok ⟨true, some ⟨some "https://auth.example/authorize?x=1"⟩, none⟩,
   fun _ => .ok ⟨false, none, some "invalid code"⟩,
   fun _ => .ok none⟩

/-- A provider double whose exchange succeeds but returns no `refreshJwt`. -/
def stubNoJwtClient : DescopeClient :=
  ⟨fun _ => .ok ⟨true, some ⟨some "https://auth.example/authorize?x=1"⟩, none⟩,
   fun _ => .ok ⟨true, some ⟨none⟩, none⟩,
   fun _ => .ok none⟩

/-- A provider double whose session validation yields a falsy result. -/
def stubInvalidSessionClient : DescopeClient :=
  ⟨fun _ => .ok ⟨true, some ⟨some "https://auth.example/authorize?x=1"⟩, none⟩,
   fun _ => .ok ⟨true, some ⟨some "refresh-jwt"⟩, none⟩,
   fun _ => .ok none⟩

/-- A provider double whose exchange succeeds but validation throws. -/
def stubThrowingValidateClient : DescopeClient :=
  ⟨fun _ => .ok ⟨true, some ⟨some "https://auth.example/authorize?x=1"⟩, none⟩,
   fun _ => .ok ⟨true, some ⟨some "refresh-jwt"⟩, none⟩,
   fun _ => .error "validation threw"⟩

/-- The source's `!code || typeof code !== 'string'` test: the `code`
parameter is absent, the empty string, or an array. -/
def codeBad : Option QueryVal → Bool
  | none => true
  | some (.str s) => decide (s = "")
  | some (.arr _) => true

/-- C7: Token round-trip — verifying a token issued under the same secret
returns the original claims while the verification time is before
`issuedTime + ttl`, and fails with the expiry error from `issuedTime + ttl`
on (in particular, strictly after it); the handlers instantiate `ttl` with
one hour (3600 seconds). -/
theorem c7_token_roundtrip (secret : String) (payload : Claims) (now ttl t : Nat) :
    (t < now + ttl → verify secret (issue secret payload now ttl) t = .ok payload) ∧
    (now + ttl ≤ t → verify secret (issue secret payload now ttl) t = .error .expired) := by
  constructor
  · intro h
    simp [verify, issue, h]
  · intro h
    simp [verify, issue, Nat.not_lt.mpr h]

/-- Witness for C7 at secret `"s"`, a one-claim payload, issuance time 0
and the reference one-hour ttl: verification succeeds at time 10 and is
expired at time 4000. -/
theorem c7_witness :
    verify "s" (issue "s" [("sub", "a")] 0 3600) 10 = .ok [("sub", "a")] ∧
    verify "s" (issue "s" [("sub", "a")] 0 3600) 4000 = .error .expired :=
  ⟨(c7_token_roundtrip "s" [("sub", "a")] 0 3600 10).1 (by decide),
   (c7_token_roundtrip "s" [("sub", "a")] 0 3600 4000).2 (by decide)⟩

/-- C8: the Access Guard answers 401 "No token provided" whenever no
bearer credential can be extracted from the authorization header;
otherwise it delegates to token verification, answering the one constant
401 "Invalid token" response on every verification failure (malformed,
bad signature and expired tokens are externally indistinguishable, the
`VerifyError` kind being visible only internally), and admitting the
request with the verified claims attached on success. -/
theorem c8_access_guard (env : Env) (auth : Option String) (now : Nat) :
    (extractBearer auth = "" →
      authenticateToken env auth now = .denied (.err 401 "No token provided")) ∧
    (∀ e : VerifyError, extractBearer auth ≠ "" →
      jwtVerifyS (jsOrS env.JWT_SECRET "") (extractBearer auth) now = .error e →
      authenticateToken env auth now = .denied (.err 401 "Invalid token")) ∧
    (∀ p : Claims, extractBearer auth ≠ "" →
      jwtVerifyS (jsOrS env.JWT_SECRET "") (extractBearer auth) now = .ok p →
      authenticateToken env auth now = .admitted p) := by
  refine ⟨?_, ?_, ?_⟩
  · intro h
    simp [authenticateToken, h]
  · intro e hne he
    simp [authenticateToken, hne, he]
  · intro p hne hp
    simp [authenticateToken, hne, hp]

/-- Witness for C8: a missing header, a malformed token, a token signed
under the wrong key, and an expired token all answer their respective
single 401, while a valid token is admitted with its claims. -/
theorem c8_witness :
    authenticateToken envDemo none 0 = .denied (.err 401 "No token provided") ∧
    authenticateToken envDemo (some "Bearer garbage") 0 = .denied (.err 401 "Invalid token") ∧
    authenticateToken envDemo (some "Bearer sub:a.100.wrong") 0
      = .denied (.err 401 "Invalid token") ∧
    authenticateToken envDemo (some "Bearer sub:a.1.demo-secret") 5
      = .denied (.err 401 "Invalid token") ∧
    authenticateToken envDemo (some "Bearer sub:alice.100.demo-secret") 0
      = .admitted [("sub", "alice")] :=
  ⟨(c8_access_guard envDemo none 0).1 (by decide),
   (c8_access_guard envDemo (some "Bearer garbage") 0).2.1 .malformed (by decide) rfl,
   (c8_access_guard envDemo (some "Bearer sub:a.100.wrong") 0).2.1 .badSignature
     (by decide) rfl,
   (c8_access_guard envDemo (some "Bearer sub:a.1.demo-secret") 5).2.1 .expired
     (by decide) rfl,
   (c8_access_guard envDemo (some "Bearer sub:alice.100.demo-secret") 0).2.2
     [("sub", "alice")] (by decide) rfl⟩

/-- C10: for any two requests whose bearer tokens pass verification,
`GET /api/auth/me` answers the identical constant `{user: dummyUser}`
record — the verified token payload has no influence on the reply. -/
theorem c10_me_independent_of_claims (env : Env) (a₁ a₂ : Option String) (n₁ n₂ : Nat)
    (p₁ p₂ : Claims)
    (h₁ : authenticateToken env a₁ n₁ = .admitted p₁)
    (h₂ : authenticateToken env a₂ n₂ = .admitted p₂) :
    authMe env a₁ n₁ = .userInfo dummyUser ∧ authMe env a₁ n₁ = authMe env a₂ n₂ := by
  simp [authMe, h₁, h₂]

/-- Witness for C10: two admitted requests carrying tokens with different
claim sets receive the same constant user record. -/
theorem c10_witness :
    authMe envDemo (some "Bearer sub:alice.100.demo-secret") 0 = .userInfo dummyUser ∧
    authMe envDemo (some "Bearer sub:alice.100.demo-secret") 0
      = authMe envDemo (some "Bearer sub:bob;email:b.200.demo-secret") 0 :=
  c10_me_independent_of_claims envDemo (some "Bearer sub:alice.100.demo-secret")
    (some "Bearer sub:bob;email:b.200.demo-secret") 0 0
    [("sub", "alice")] [("sub", "bob"), ("email", "b")] (by decide) (by decide)

/-- C2: contrary to the claim, when `JWT_SECRET` is unset the callback
performs no configuration check: it silently signs the session token under
the empty-string key (`process.env.JWT_SECRET || ""`) and returns it, the
behaviour the spec forbids as producing a forgeable token. -/
theorem c2_empty_secret_still_signs :
    (callback envNoSecret stubClient ⟨some (.str "validcode123"), none, none⟩ 0).1
      = .page (issue "" [("sub", "U1"), ("email", "u@example.com")] 0 3600)
          "http://localhost:3000"
    ∧ (issue "" [("sub", "U1"), ("email", "u@example.com")] 0 3600).key = "" := by
  decide

/-- C3 counterexample: a submission whose identity is not the seeded one
(`testuser` / `test@example.com`) but whose secret is `"password"` is not
rejected — the MFA login consults only the password and answers 200 with a
redirect, not the claimed 401 `Invalid credentials`. -/
theorem c3_counterexample :
    login envDemo stubClient "not-the-seeded-user@example.com" "password"
        = .redirect "https://auth.example/authorize?x=1&login_hint=not-the-seeded-user@example.com"
      ∧ login envDemo stubClient "not-the-seeded-user@example.com" "password"
          ≠ .err 401 "Invalid credentials" := by
  decide

/-- C3 amended: the MFA login rejects with 401 `Invalid credentials`
exactly when the submitted secret differs from `"password"`, regardless of
the submitted identity; the password-only variant rejects with the same
single 401 `Invalid credentials` exactly when the identity is not
`testuser` or the secret is not `"password"`, so within each gate the
rejection content never reveals which part was wrong. -/
theorem c3_credential_gate_amended :
    (∀ (env : Env) (client : DescopeClient) (email pw : String), pw ≠ "password" →
        login env client email pw = .err 401 "Invalid credentials") ∧
    (∀ (env : Env) (client : DescopeClient) (email : String),
        login env client email "password" ≠ .err 401 "Invalid credentials") ∧
    (∀ (env : Env) (u pw : String) (now : Nat), u ≠ "testuser" ∨ pw ≠ "password" →
        homegrownLogin env u pw now = .err 401 "Invalid credentials") ∧
    (∀ (env : Env) (now : Nat),
        homegrownLogin env "testuser" "password" now ≠ .err 401 "Invalid credentials") := by
  refine ⟨?_, ?_, ?_, ?_⟩
  · intro env client email pw h
    simp [login, h]
  · intro env client email
    simp only [login, if_pos rfl]
    cases hg : getOidcRedirectUrl env client email <;> simp
  · intro env u pw now h
    rcases h with h | h <;> simp [homegrownLogin, h]
  · intro env now
    simp [homegrownLogin]

/-- Witness for C3 amended: a wrong secret with the seeded contact address
is rejected, an unknown identity and a wrong secret in the password-only
variant receive the identical rejection, and the accepted pairs are not
rejected. -/
theorem c3_witness :
    login envDemo stubClient "test@example.com" "wrong" = .err 401 "Invalid credentials" ∧
    login envDemo stubClient "test@example.com" "password" ≠ .err 401 "Invalid credentials" ∧
    homegrownLogin envDemo "alice" "password" 0 = .err 401 "Invalid credentials" ∧
    homegrownLogin envDemo "testuser" "wrong" 0 = .err 401 "Invalid credentials" ∧
    homegrownLogin envDemo "testuser" "password" 0 ≠ .err 401 "Invalid credentials" :=
  ⟨c3_credential_gate_amended.1 envDemo stubClient "test@example.com" "wrong" (by decide),
   c3_credential_gate_amended.2.1 envDemo stubClient "test@example.com",
   c3_credential_gate_amended.2.2.1 envDemo "alice" "password" 0 (Or.inl (by decide)),
   c3_credential_gate_amended.2.2.1 envDemo "testuser" "wrong" 0 (Or.inr (by decide)),
   c3_credential_gate_amended.2.2.2 envDemo 0⟩

/-- C4 counterexample: a callback whose `error` parameter is present but
equal to the empty string (`?error=&code=validcode123`) slips past the
source's truthiness test `if (error)`, and the handler does call
`oauth.exchange` — the exchange call count is 1, not 0. -/
theorem c4_counterexample :
    (callback envDemo stubClient ⟨some (.str "validcode123"), none, some (.str "")⟩ 0).2
        = [PCall.exchange "validcode123", PCall.validate "refresh-jwt"]
      ∧ (some (QueryVal.str "") ≠ (none : Option QueryVal)) := by
  decide

/-- C4 amended: a callback whose `error` parameter is truthy in the
JavaScript sense (a non-empty string, or an array value) is answered with
the 400 provider-error rejection immediately, before any provider call —
in particular with an `oauth.exchange` call count of zero; only an
`error` parameter equal to the empty string is ignored. -/
theorem c4_truthy_error_no_exchange (env : Env) (client : DescopeClient) (q : Query)
    (now : Nat) (h : truthyQV q.error = true) :
    callback env client q now
      = (.err 400 ("Authentication failed: " ++ displayQV q.error), []) := by
  simp [callback, h]

/-- Witness for C4 amended: a callback carrying `error=access_denied`
answers 400 and performs no provider call at all. -/
theorem c4_witness :
    callback envDemo stubClient ⟨some (.str "validcode123"), none, some (.str "access_denied")⟩ 0
      = (.err 400 "Authentication failed: access_denied", []) :=
  (c4_truthy_error_no_exchange envDemo stubClient
    ⟨some (.str "validcode123"), none, some (.str "access_denied")⟩ 0 (by decide)).trans
    (by decide)

/-- C6: on first-factor success (secret `"password"`) the login operation
answers 200 carrying exactly the provider's authorization URL with
`&login_hint=<submitted contact address>` appended and mints no session
token; when the provider start step fails in any way, the login answers
500 `Error getting redirect URL`. -/
theorem c6_login_success_redirect (env : Env) (client : DescopeClient) (email : String) :
    (∀ (r : SdkResp StartData) (u : String),
        jsOrS env.DESCOPE_PROJECT_ID "" ≠ "" →
        client.oauthStart (jsOrS env.DESCOPE_REDIRECT_URL "") = .ok r →
        r.ok = true →
        jsOrS (r.data.bind StartData.url) "" = u →
        u ≠ "" →
        login env client email "password" = .redirect (u ++ "&login_hint=" ++ email)
          ∧ mintsToken (login env client email "password") = none) ∧
    (∀ e : String, getOidcRedirectUrl env client email = .error e →
        login env client email "password" = .err 500 "Error getting redirect URL") := by
  constructor
  · intro r u hp hs hok hu hne
    subst hu
    have hg : getOidcRedirectUrl env client email
        = .ok (jsOrS (r.data.bind StartData.url) "" ++ "&login_hint=" ++ email) := by
      simp [getOidcRedirectUrl, hp, hs, hok, hne]
    constructor
    · simp [login, hg]
    · simp [login, hg, mintsToken]
  · intro e hg
    simp [login, hg]

/-- Witness for C6: with the successful provider double the login answers
the provider URL plus the login hint and no token; with the unreachable
provider double it answers 500. -/
theorem c6_witness :
    (login envDemo stubClient "demo@example.com" "password"
        = .redirect ("https://auth.example/authorize?x=1" ++ "&login_hint=" ++ "demo@example.com")
      ∧ mintsToken (login envDemo stubClient "demo@example.com" "password") = none)
    ∧ login envDemo stubDownClient "demo@example.com" "password"
        = .err 500 "Error getting redirect URL" :=
  ⟨(c6_login_success_redirect envDemo stubClient "demo@example.com").1
      ⟨true, some ⟨some "https://auth.example/authorize?x=1"⟩, none⟩
      "https://auth.example/authorize?x=1" (by decide) rfl rfl rfl (by decide),
   (c6_login_success_redirect envDemo stubDownClient "demo@example.com").2 "network" rfl⟩

/-- C9: when the exchange and validation succeed but the validated provider
session carries no `userId`, `sub` or `email` field, the callback still
succeeds and mints a session token whose `sub` and `email` claims are both
the empty string. -/
theorem c9_empty_identity_token (env : Env) (client : DescopeClient) (q : Query) (now : Nat)
    (c : String) (tr : SdkResp ExchangeData) (st : String)
    (he : truthyQV q.error = false) (hc : q.code = some (.str c)) (hcne : c ≠ "")
    (hx : client.oauthExchange c = .ok tr) (hok : tr.ok = true)
    (hst : jsOrS (tr.data.bind ExchangeData.refreshJwt) "" = st) (hstne : st ≠ "")
    (hv : client.validateSession st = .ok (some ⟨none, none, none⟩)) :
    (callback env client q now).1
      = .page (issue (jsOrS env.JWT_SECRET "") [("sub", ""), ("email", "")] now 3600)
          (jsOrS env.FRONTEND_URL "http://localhost:3000") := by
  subst hst
  simp [callback, he, hc, hcne, hx, hok, hstne, hv]
  simp [jsOrS]

/-- Witness for C9: against the provider double whose validated session is
empty, a completed two-factor callback yields a token carrying an empty
identity. -/
theorem c9_witness :
    (callback envDemo stubEmptyUserClient ⟨some (.str "validcode123"), none, none⟩ 4).1
      = .page (issue "demo-secret" [("sub", ""), ("email", "")] 4 3600)
          "http://localhost:3000" :=
  (c9_empty_identity_token envDemo stubEmptyUserClient
      ⟨some (.str "validcode123"), none, none⟩ 4 "validcode123"
      ⟨true, some ⟨some "refresh-jwt"⟩, none⟩ "refresh-jwt"
      (by decide) rfl (by decide) rfl rfl rfl (by decide) rfl).trans (by decide)

/-- C5 counterexample: a callback carrying an empty-string `error`
parameter together with a valid code is not answered with status 400 as
the claim requires for every input with `error` present — the falsy empty
string passes `if (error)` and the flow runs to completion with status
200. -/
theorem c5_counterexample :
    statusOf (callback envDemo stubClient ⟨some (.str "validcode123"), none, some (.str "")⟩ 0).1
        = 200
      ∧ (some (QueryVal.str "") ≠ (none : Option QueryVal)) := by
  decide

/-- C5 amended: the callback's classification is exact once `error
present` is read as JS-truthy (non-empty string or array): 400 with the
provider-error message on a truthy `error`; 400 with the distinct
malformed-request message when the `code` parameter is absent, empty or
not a string; 401 when the exchange is rejected, when it yields no session
token, or when validation is falsy; 500 when a provider call throws; and
on success a page that stores the freshly issued one-hour token
client-side and redirects to the configured frontend's protected page. -/
theorem c5_callback_classification :
    (∀ (env : Env) (client : DescopeClient) (q : Query) (now : Nat),
        truthyQV q.error = true →
        (callback env client q now).1
          = .err 400 ("Authentication failed: " ++ displayQV q.error)) ∧
    (∀ (env : Env) (client : DescopeClient) (q : Query) (now : Nat),
        truthyQV q.error = false → codeBad q.code = true →
        (callback env client q now).1 = .err 400 "No authorization code provided") ∧
    (∀ (env : Env) (client : DescopeClient) (q : Query) (now : Nat) (c e : String),
        truthyQV q.error = false → q.code = some (.str c) → c ≠ "" →
        client.oauthExchange c = .error e →
        (callback env client q now).1 = .err 500 "Error processing authentication") ∧
    (∀ (env : Env) (client : DescopeClient) (q : Query) (now : Nat) (c : String)
        (tr : SdkResp ExchangeData),
        truthyQV q.error = false → q.code = some (.str c) → c ≠ "" →
        client.oauthExchange c = .ok tr → tr.ok = false →
        (callback env client q now).1 = .err 401 "Failed to exchange authorization code") ∧
    (∀ (env : Env) (client : DescopeClient) (q : Query) (now : Nat) (c : String)
        (tr : SdkResp ExchangeData),
        truthyQV q.error = false → q.code = some (.str c) → c ≠ "" →
        client.oauthExchange c = .ok tr → tr.ok = true →
        jsOrS (tr.data.bind ExchangeData.refreshJwt) "" = "" →
        (callback env client q now).1 = .err 401 "No session token received") ∧
    (∀ (env : Env) (client : DescopeClient) (q : Query) (now : Nat) (c e : String)
        (tr : SdkResp ExchangeData),
        truthyQV q.error = false → q.code = some (.str c) → c ≠ "" →
        client.oauthExchange c = .ok tr → tr.ok = true →
        jsOrS (tr.data.bind ExchangeData.refreshJwt) "" ≠ "" →
        client.validateSession (jsOrS (tr.data.bind ExchangeData.refreshJwt) "") = .error e →
        (callback env client q now).1 = .err 500 "Error processing authentication") ∧
    (∀ (env : Env) (client : DescopeClient) (q : Query) (now : Nat) (c : String)
        (tr : SdkResp ExchangeData),
        truthyQV q.error = false → q.code = some (.str c) → c ≠ "" →
        client.oauthExchange c = .ok tr → tr.ok = true →
        jsOrS (tr.data.bind ExchangeData.refreshJwt) "" ≠ "" →
        client.validateSession (jsOrS (tr.data.bind ExchangeData.refreshJwt) "") = .ok none →
        (callback env client q now).1 = .err 401 "Invalid session") ∧
    (∀ (env : Env) (client : DescopeClient) (q : Query) (now : Nat) (c : String)
        (tr : SdkResp ExchangeData) (info : SessionInfo),
        truthyQV q.error = false → q.code = some (.str c) → c ≠ "" →
        client.oauthExchange c = .ok tr → tr.ok = true →
        jsOrS (tr.data.bind ExchangeData.refreshJwt) "" ≠ "" →
        client.validateSession (jsOrS (tr.data.bind ExchangeData.refreshJwt) "")
          = .ok (some info) →
        (callback env client q now).1
          = .page (issue (jsOrS env.JWT_SECRET "")
                [("sub", jsOrS info.userId (jsOrS info.sub "")),
                 ("email", jsOrS info.email "")] now 3600)
              (jsOrS env.FRONTEND_URL "http://localhost:3000")) := by
  refine ⟨?_, ?_, ?_, ?_, ?_, ?_, ?_, ?_⟩
  · intro env client q now he
    simp [callback, he]
  · intro env client q now he hb
    rcases hq : q.code with _ | v
    · simp [callback, he, hq]
    · rcases v with s | l
      · rw [hq] at hb
        simp only [codeBad, decide_eq_true_eq] at hb
        simp [callback, he, hq, hb]
      · simp [callback, he, hq]
  · intro env client q now c e he hq hc hx
    simp [callback, he, hq, hc, hx]
  · intro env client q now c tr he hq hc hx hok
    simp [callback, he, hq, hc, hx, hok]
  · intro env client q now c tr he hq hc hx hok hst
    simp [callback, he, hq, hc, hx, hok, hst]
  · intro env client q now c e tr he hq hc hx hok hst hv
    simp [callback, he, hq, hc, hx, hok, hst, hv]
  · intro env client q now c tr he hq hc hx hok hst hv
    simp [callback, he, hq, hc, hx, hok, hst, hv]
  · intro env client q now c tr info he hq hc hx hok hst hv
    simp [callback, he, hq, hc, hx, hok, hst, hv]

/-- Witness for C5 amended: each branch of the classification is reached
by a concrete request against the matching provider double. -/
theorem c5_witness :
    (callback envDemo stubClient ⟨some (.str "c"), none, some (.str "denied")⟩ 0).1
        = .err 400 ("Authentication failed: " ++ displayQV (some (QueryVal.str "denied"))) ∧
    (callback envDemo stubClient ⟨none, none, none⟩ 0).1
        = .err 400 "No authorization code provided" ∧
    (callback envDemo stubDownClient ⟨some (.str "c"), none, none⟩ 0).1
        = .err 500 "Error processing authentication" ∧
    (callback envDemo stubFailExchangeClient ⟨some (.str "c"), none, none⟩ 0).1
        = .err 401 "Failed to exchange authorization code" ∧
    (callback envDemo stubNoJwtClient ⟨some (.str "c"), none, none⟩ 0).1
        = .err 401 "No session token received" ∧
    (callback envDemo stubThrowingValidateClient ⟨some (.str "c"), none, none⟩ 0).1
        = .err 500 "Error processing authentication" ∧
    (callback envDemo stubInvalidSessionClient ⟨some (.str "c"), none, none⟩ 0).1
        = .err 401 "Invalid session" ∧
    (callback envDemo stubClient ⟨some (.str "c"), none, none⟩ 0).1
        = .page (issue (jsOrS envDemo.JWT_SECRET "")
              [("sub", jsOrS (some "U1") (jsOrS none "")),
               ("email", jsOrS (some "u@example.com") "")] 0 3600)
            (jsOrS envDemo.FRONTEND_URL "http://localhost:3000") :=
  ⟨c5_callback_classification.1 envDemo stubClient
      ⟨some (.str "c"), none, some (.str "denied")⟩ 0 (by decide),
   c5_callback_classification.2.1 envDemo stubClient ⟨none, none, none⟩ 0
      (by decide) (by decide),
   c5_callback_classification.2.2.1 envDemo stubDownClient ⟨some (.str "c"), none, none⟩ 0
      "c" "network" (by decide) rfl (by decide) rfl,
   c5_callback_classification.2.2.2.1 envDemo stubFailExchangeClient
      ⟨some (.str "c"), none, none⟩ 0 "c" ⟨false, none, some "invalid code"⟩
      (by decide) rfl (by decide) rfl rfl,
   c5_callback_classification.2.2.2.2.1 envDemo stubNoJwtClient
      ⟨some (.str "c"), none, none⟩ 0 "c" ⟨true, some ⟨none⟩, none⟩
      (by decide) rfl (by decide) rfl rfl rfl,
   c5_callback_classification.2.2.2.2.2.1 envDemo stubThrowingValidateClient
      ⟨some (.str "c"), none, none⟩ 0 "c" "validation threw"
      ⟨true, some ⟨some "refresh-jwt"⟩, none⟩
      (by decide) rfl (by decide) rfl rfl (by decide) rfl,
   c5_callback_classification.2.2.2.2.2.2.1 envDemo stubInvalidSessionClient
      ⟨some (.str "c"), none, none⟩ 0 "c" ⟨true, some ⟨some "refresh-jwt"⟩, none⟩
      (by decide) rfl (by decide) rfl rfl (by decide) rfl,
   c5_callback_classification.2.2.2.2.2.2.2 envDemo stubClient
      ⟨some (.str "c"), none, none⟩ 0 "c" ⟨true, some ⟨some "refresh-jwt"⟩, none⟩
      ⟨some "U1", none, some "u@example.com"⟩
      (by decide) rfl (by decide) rfl rfl (by decide) rfl⟩

/-- C1 counterexample: in the cited password-only login route, the first
factor alone mints and returns a signed session token — submitting the
seeded identity and secret yields a `{token, user}` response with no
provider `validate` call anywhere in that variant. -/
theorem c1_counterexample :
    homegrownLogin envDemo "testuser" "password" 0
        = .tokenUser (issue "demo-secret" [("userId", "1"), ("username", "testuser")] 0 3600)
            dummyUser
      ∧ mintsToken (homegrownLogin envDemo "testuser" "password" 0)
          = some (issue "demo-secret" [("userId", "1"), ("username", "testuser")] 0 3600) := by
  decide

/-- C1 amended: in the MFA-augmented server the claim holds — the login
operation never returns a session token on any input, and the callback
hands a token to the client only when the authorization code was present
and `oauth.exchange` on it succeeded with a truthy session token whose
`validateSession` call returned a truthy result; the password-only
variant's login route, however, mints a token from the first factor
alone. -/
theorem c1_token_only_after_exchange_and_validate :
    (∀ (env : Env) (client : DescopeClient) (email password : String),
        mintsToken (login env client email password) = none) ∧
    (∀ (env : Env) (client : DescopeClient) (q : Query) (now : Nat) (t : Token) (fe : String),
        (callback env client q now).1 = .page t fe →
        ∃ (c : String) (tr : SdkResp ExchangeData) (info : SessionInfo),
          q.code = some (.str c) ∧ c ≠ "" ∧
          client.oauthExchange c = .ok tr ∧ tr.ok = true ∧
          jsOrS (tr.data.bind ExchangeData.refreshJwt) "" ≠ "" ∧
          client.validateSession (jsOrS (tr.data.bind ExchangeData.refreshJwt) "")
            = .ok (some info)) := by
  constructor
  · intro env client email password
    unfold login
    split
    · cases hg : getOidcRedirectUrl env client email <;> simp [mintsToken]
    · simp [mintsToken]
  · intro env client q now t fe h
    by_cases he : truthyQV q.error = true
    · simp [callback, he] at h
    · rw [Bool.not_eq_true] at he
      rcases hq : q.code with _ | v
      · simp [callback, he, hq] at h
      · rcases v with s | l
        · by_cases hc : s = ""
          · simp [callback, he, hq, hc] at h
          · rcases hx : client.oauthExchange s with e | tr
            · simp [callback, he, hq, hc, hx] at h
            · cases hok : tr.ok with
              | false => simp [callback, he, hq, hc, hx, hok] at h
              | true =>
                by_cases hst : jsOrS (tr.data.bind ExchangeData.refreshJwt) "" = ""
                · simp [callback, he, hq, hc, hx, hok, hst] at h
                · rcases hv : client.validateSession
                      (jsOrS (tr.data.bind ExchangeData.refreshJwt) "") with e | o
                  · simp [callback, he, hq, hc, hx, hok, hst, hv] at h
                  · rcases o with _ | info
                    · simp [callback, he, hq, hc, hx, hok, hst, hv] at h
                    · exact ⟨s, tr, info, rfl, hc, hx, hok, hst, hv⟩
        · simp [callback, he, hq] at h

/-- Witness for C1 amended: the MFA login on accepted credentials mints no
token, and a callback that did produce a token implies a successful
exchange and a truthy session validation for its code. -/
theorem c1_witness :
    mintsToken (login envDemo stubClient "demo@example.com" "password") = none ∧
    ∃ (c : String) (tr : SdkResp ExchangeData) (info : SessionInfo),
      (⟨some (.str "validcode123"), none, none⟩ : Query).code = some (.str c) ∧ c ≠ "" ∧
      stubClient.oauthExchange c = .ok tr ∧ tr.ok = true ∧
      jsOrS (tr.data.bind ExchangeData.refreshJwt) "" ≠ "" ∧
      stubClient.validateSession (jsOrS (tr.data.bind ExchangeData.refreshJwt) "")
        = .ok (some info) :=
  ⟨c1_token_only_after_exchange_and_validate.1 envDemo stubClient "demo@example.com" "password",
   c1_token_only_after_exchange_and_validate.2 envDemo stubClient
     ⟨some (.str "validcode123"), none, none⟩ 0
     (issue "demo-secret" [("sub", "U1"), ("email", "u@example.com")] 0 3600)
     "http://localhost:3000" rfl⟩

end Spec2Proof
